import Mathlib

/-!
Shallow embedding of the node-leveldb binding layer (src/src/DB.cc) in Lean 4.

The embedding models:
* the engine handle lifecycle (`db : Option Store`, `NULL` = `none`),
* the synchronous method entry points (`DB::Put`, `DB::Del`, `DB::Write`,
  `DB::Get`, `DB::NewIterator`, `DB::Close`, `DB::Open`),
* the worker-thread execute functions (`DB::EIO_Open`, `DB::EIO_Close`,
  `DB::EIO_Write`, `DB::EIO_Read`),
* the caller-thread completion functions (`DB::EIO_After*`) and the
  completion-callback dispatch (`DB::Params::Callback`),
* the reference-counting discipline of `DB::Params` construction and
  destruction.

Byte sequences are `List Nat`; JavaScript strings are represented by the
byte sequence of their UTF-8 contents.  The external leveldb engine is
modelled as an ordered association list applied per batch entry; the repo
headers missing from the source tree (helpers.h, DB.h, WriteBatch.h) are
modelled from the spec, each marked in its doc comment.
-/

namespace NodeLevelDB

/-- Byte sequences: keys, values and payloads, byte for byte. -/
abbrev Bytes := List Nat

/-- A caller-supplied key or value: a JS text string (its UTF-8 bytes) or a
byte buffer (`Buffer`), the two argument types `DB.cc` accepts for keys and
values. -/
inductive JsValue
  | text (b : Bytes)
  | buffer (b : Bytes)
deriving DecidableEq, Repr

/-- The raw bytes of a key/value argument. -/
def JsValue.bytes : JsValue → Bytes
  | .text b => b
  | .buffer b => b

/-- Outcome status, `leveldb::Status` as the binding consumes it
(`src/src/DB.cc:524-541`): `ok`, `IsNotFound`, or any other failure
carrying `ToString()`. -/
inductive Status
  | ok
  | notFound
  | error (msg : String)
deriving DecidableEq, Repr

/-- Predicate `status.ok()` (`src/src/DB.cc:524`). -/
def Status.isOk : Status → Bool
  | .ok => true
  | _ => false

/-- Predicate `status.IsNotFound()` (`src/src/DB.cc:532`). -/
def Status.isNotFound : Status → Bool
  | .notFound => true
  | _ => false

/-- One entry of a leveldb `WriteBatch`: `Put(key, value)` or `Delete(key)`
(`src/src/DB.cc:203,250`). -/
inductive BatchEntry
  | put (k v : Bytes)
  | del (k : Bytes)
deriving DecidableEq, Repr

/-- Modelled from the spec: the `WriteBatch` wrapper class (its header
`WriteBatch.h` is not in the source tree).  Per the spec's Mutation Set, it
holds an ordered entry list (`wb`) plus owned backing storage for byte
sequences copied out of transient text inputs (`strings`,
`src/src/DB.cc:201-203` accesses both fields). -/
structure WriteBatch where
  wb : List BatchEntry
  strings : List Bytes
deriving DecidableEq, Repr

/-- The external engine's store: an ordered association of keys to values. -/
abbrev Store := List (Bytes × Bytes)

/-- Modelled from the spec: engine point lookup (`leveldb::DB::Get`), an
external collaborator — first binding wins, `none` when absent. -/
def storeGet : Store → Bytes → Option Bytes
  | [], _ => none
  | (k, v) :: rest, key => if k = key then some v else storeGet rest key

/-- Modelled from the spec: applying one Mutation Set entry to the engine
store; a put binds the key (shadowing earlier bindings), a delete removes
it. -/
def applyEntry (s : Store) : BatchEntry → Store
  | .put k v => (k, v) :: s.filter (fun p => p.1 ≠ k)
  | .del k => s.filter (fun p => p.1 ≠ k)

/-- Modelled from the spec: `leveldb::DB::Write` applies the Mutation Set's
entries atomically, in insertion order. -/
def applyBatch (s : Store) (entries : List BatchEntry) : Store :=
  entries.foldl applyEntry s

/-- Modelled from the spec: `JsToSlice` (declared in the missing
`helpers.h`).  It yields an engine byte view over the argument; a text
argument's bytes are copied into the supplied owned-storage vector (the
transient input must survive the thread handoff), a buffer is borrowed
directly.  Returns the slice bytes and the updated owned storage. -/
def JsToSlice (v : JsValue) (strings : List Bytes) : Bytes × List Bytes :=
  match v with
  | .text b => (b, strings ++ [b])
  | .buffer b => (b, strings)

/-- A payload value handed to the completion callback: a JS string built by
`String::New(data, length)` or a byte buffer. -/
inductive JsResult
  | jsString (b : Bytes)
  | jsBuffer (b : Bytes)
deriving DecidableEq, Repr

/-- The argument shape of one completion-callback invocation
(`src/src/DB.cc:521-546`). -/
inductive CallbackInvocation
  | noArgs
  | nullAndResult (r : JsResult)
  | nullOnly
  | errorArg (msg : String)
deriving DecidableEq, Repr

/-- Embeds `DB::Params::Callback(result)` (`src/src/DB.cc:521-546`): with no
callback supplied nothing is invoked; otherwise the invocation shape is
chosen by the outcome status — `ok` with empty result → zero arguments,
`ok` with a result → `(null, result)`, `IsNotFound` → `(null)`, any other
status → a single error value wrapping `status.ToString()`. -/
def paramsCallback (hasCallback : Bool) (status : Status) (result : Option JsResult) :
    Option CallbackInvocation :=
  if hasCallback then
    some (if status.isOk then
            match result with
            | none => .noArgs
            | some r => .nullAndResult r
          else if status.isNotFound then
            .nullOnly
          else
            match status with
            | .error m => .errorArg m
            | _ => .nullOnly)
  else
    none

/-- Whether the JS callback body raised: `try_catch.HasCaught()` after
`callback->Call` (`src/src/DB.cc:542`). -/
inductive CompletionReport
  | normal
  | fatalException
deriving DecidableEq, Repr

/-- Embeds `DB::Params::Callback` including the `TryCatch` wrapper
(`src/src/DB.cc:522-544`): `throws` tells whether the JS callback body
raises on a given invocation; a caught exception is reported through
`FatalException` (process-fatal), never swallowed. -/
def paramsCallbackRun (hasCallback : Bool) (status : Status) (result : Option JsResult)
    (throws : CallbackInvocation → Bool) :
    Option CallbackInvocation × CompletionReport :=
  match paramsCallback hasCallback status result with
  | none => (none, .normal)
  | some inv => (some inv, if throws inv then .fatalException else .normal)

/-- Observable events of one operation's lifetime.  `refSelf`/`unrefSelf`
are `self->Ref()`/`self->Unref()`, `refLoop`/`unrefLoop` are
`ev_ref`/`ev_unref` (`src/src/DB.cc:507-519`); `executeRun` marks the
worker-thread execute function, `completeRun` the caller-thread completion
function; `callbackInvoked` records a completion-callback call;
`batchDestroyed` is `delete params->writeBatch`
(`src/src/DB.cc:342`); `engineDestroyed` is `delete self->db`;
`engineOpenAttempted` marks the call into the external
`leveldb::DB::Open`; `paramsDestroyed` is `delete params`. -/
inductive OpEvent
  | refSelf
  | refLoop
  | unrefSelf
  | unrefLoop
  | executeRun
  | completeRun
  | callbackInvoked (inv : CallbackInvocation)
  | batchDestroyed
  | engineDestroyed
  | engineOpenAttempted
  | paramsDestroyed
deriving DecidableEq, Repr

/-- The events a completion-callback dispatch contributes to the trace:
one `callbackInvoked` event when a callback was supplied and invoked,
none otherwise. -/
def callbackEvents (o : Option CallbackInvocation) : List OpEvent :=
  match o with
  | none => []
  | some inv => [.callbackInvoked inv]

/-- Whether an event is a completion-callback invocation. -/
def OpEvent.isCallback : OpEvent → Bool
  | .callbackInvoked _ => true
  | _ => false

/-- The event trace of one dispatched operation, split by the thread the
events run on: `dispatch` (caller thread, bundle construction), `worker`
(worker thread, the `EIO_*` execute function), `completion` (caller
thread, the `EIO_After*` function).  `eio_custom`
(`src/src/DB.cc:104,157,320,397`) guarantees the worker segment runs
exactly once, strictly before the completion segment, which runs back on
the caller thread. -/
structure OpRun where
  dispatch : List OpEvent
  worker : List OpEvent
  completion : List OpEvent
deriving Repr

/-- The full event trace in execution order. -/
def OpRun.trace (r : OpRun) : List OpEvent :=
  r.dispatch ++ r.worker ++ r.completion

/-- Embeds `DB::Params` construction (`src/src/DB.cc:507-513`): takes a strong
reference on the binding object and an event-loop liveness reference. -/
def paramsCtorEvents : List OpEvent :=
  [.refSelf, .refLoop]

/-- Embeds `DB::Params` destruction (`src/src/DB.cc:515-519`): releases the
binding reference and the event-loop reference, then the bundle is gone. -/
def paramsDtorEvents : List OpEvent :=
  [.unrefSelf, .unrefLoop, .paramsDestroyed]

/-- Embeds `DB::WriteParams` (declared in the missing `DB.h`; fields used at
`src/src/DB.cc:221-222,313,324-345`): the Mutation Set, whether the
completion path owns (and must destroy) it, whether a callback was
supplied, and the mutable outcome status written by the worker.  Modelled
from the spec for the field defaults: a freshly constructed bundle has an
`ok` status and, unless `DB::Put`/`DB::Del` set it, `disposeWriteBatch`
is false (an explicitly-supplied Mutation Set is caller-owned). -/
structure WriteParams where
  writeBatch : WriteBatch
  disposeWriteBatch : Bool := false
  hasCallback : Bool
  status : Status := .ok
deriving DecidableEq, Repr

/-- Embeds `DB::ReadParams` (declared in the missing `DB.h`; fields used at
`src/src/DB.cc:390,401-416`): the key slice, the owned-copy storage when
the key argument was text, whether a callback was supplied, the mutable
outcome status and the result byte string, both defaulted (`ok`, empty). -/
structure ReadParams where
  key : Bytes
  strings : Option (List Bytes)
  hasCallback : Bool
  status : Status := .ok
  result : Bytes := []
deriving DecidableEq, Repr

/-- Embeds `DB::EIO_Write` (`src/src/DB.cc:323-333`): runs on the worker thread;
if the engine handle is null the outcome slot is left untouched, otherwise
the Mutation Set is applied atomically and the resulting status recorded
(the modelled engine write always succeeds). -/
def EIO_Write (db : Option Store) (p : WriteParams) : Option Store × WriteParams :=
  match db with
  | none => (none, p)
  | some store => (some (applyBatch store p.writeBatch.wb), { p with status := .ok })

/-- Embeds `DB::EIO_AfterWrite` (`src/src/DB.cc:335-347`): caller-thread
completion — invoke the callback with no result payload, destroy the
batch exactly when the bundle owns it, destroy the bundle. -/
def EIO_AfterWrite (p : WriteParams) : List OpEvent :=
  .completeRun ::
    (callbackEvents (paramsCallback p.hasCallback p.status none)
      ++ (if p.disposeWriteBatch then [OpEvent.batchDestroyed] else [])
      ++ paramsDtorEvents)

/-- One dispatched write operation end to end: bundle construction on the
caller thread, `EIO_Write` on the worker against the engine handle as it
is at execution time, `EIO_AfterWrite` back on the caller thread.
Returns the engine handle afterwards and the event trace. -/
def runWriteOp (db : Option Store) (p : WriteParams) : Option Store × OpRun :=
  let (db2, p2) := EIO_Write db p
  (db2,
   { dispatch := paramsCtorEvents
     worker := [.executeRun]
     completion := EIO_AfterWrite p2 })

/-- Embeds `DB::EIO_Read` (`src/src/DB.cc:400-410`): runs on the worker thread;
if the engine handle is null the outcome slot is left untouched, otherwise
a point lookup fills status and result. -/
def EIO_Read (db : Option Store) (p : ReadParams) : ReadParams :=
  match db with
  | none => p
  | some store =>
    match storeGet store p.key with
    | some v => { p with status := .ok, result := v }
    | none => { p with status := .notFound }

/-- Embeds `DB::EIO_AfterRead` (`src/src/DB.cc:412-420`): caller-thread
completion — invoke the callback passing
`String::New(result.data(), result.length())` as the payload (always a JS
string, never a buffer), then destroy the bundle. -/
def EIO_AfterRead (p : ReadParams) : List OpEvent :=
  .completeRun ::
    (callbackEvents (paramsCallback p.hasCallback p.status (some (.jsString p.result)))
      ++ paramsDtorEvents)

/-- One dispatched read operation end to end, against the engine handle as
it is when the worker runs. -/
def runReadOp (db : Option Store) (p : ReadParams) : OpRun :=
  { dispatch := paramsCtorEvents
    worker := [.executeRun]
    completion := EIO_AfterRead (EIO_Read db p) }

/-- Embeds `DB::EIO_Close` (`src/src/DB.cc:160-170`): if the handle is open,
destroy the engine instance and null the handle; otherwise nothing.
Returns the handle afterwards and the worker events. -/
def EIO_Close (db : Option Store) : Option Store × List OpEvent :=
  match db with
  | none => (none, [.executeRun])
  | some _ => (none, [.executeRun, .engineDestroyed])

/-- One dispatched close operation end to end (`src/src/DB.cc:138-178`):
the bundle is a plain `Params` whose status is never written, so the
completion callback — if supplied — sees the default `ok` status and no
result payload. -/
def runCloseOp (db : Option Store) (hasCallback : Bool) : Option Store × OpRun :=
  let (db2, workerEvents) := EIO_Close db
  (db2,
   { dispatch := paramsCtorEvents
     worker := workerEvents
     completion :=
       .completeRun ::
         (callbackEvents (paramsCallback hasCallback .ok none)
           ++ paramsDtorEvents) })

/-- Embeds `DB::OpenParams` (declared in the missing `DB.h`; fields used at
`src/src/DB.cc:97,108-118`): the filename, whether a callback was
supplied, and the mutable outcome status. -/
structure OpenParams where
  name : String
  hasCallback : Bool
  status : Status := .ok
deriving DecidableEq, Repr

/-- Embeds `DB::EIO_Open` (`src/src/DB.cc:107-121`): if a previous engine
instance is open it is destroyed and the handle nulled first; then the
engine open is attempted — `engineOpen` stands for the external
`leveldb::DB::Open(options, name, &self->db)` call, yielding either a
fresh engine instance or a failure status, with the handle left null on
failure.  Returns the handle afterwards, the updated bundle, and the
worker events. -/
def EIO_Open (db : Option Store) (engineOpen : Except String Store) (p : OpenParams) :
    Option Store × OpenParams × List OpEvent :=
  let closePrev : Option Store × List OpEvent :=
    match db with
    | none => (none, [])
    | some _ => (none, [.engineDestroyed])
  match engineOpen with
  | .ok store =>
    (some store, { p with status := .ok },
     .executeRun :: closePrev.2 ++ [.engineOpenAttempted])
  | .error msg =>
    (closePrev.1, { p with status := .error msg },
     .executeRun :: closePrev.2 ++ [.engineOpenAttempted])

/-- One dispatched open operation end to end (`src/src/DB.cc:68-131`):
`EIO_AfterOpen` invokes the callback with no result payload and destroys
the bundle. -/
def runOpenOp (db : Option Store) (engineOpen : Except String Store) (p : OpenParams) :
    Option Store × OpRun :=
  let (db2, p2, workerEvents) := EIO_Open db engineOpen p
  (db2,
   { dispatch := paramsCtorEvents
     worker := workerEvents
     completion :=
       .completeRun ::
         (callbackEvents (paramsCallback p2.hasCallback p2.status none)
           ++ paramsDtorEvents) })

/-- The synchronous result of a method entry point on the caller thread:
a thrown exception (`ThrowException`, before any bundle construction or
dispatch), a constructed parameter bundle handed to the async bridge
(`EIO_Before*`), a synchronously returned value, or a dereference of the
null engine handle (undefined behaviour — no exception, no dispatch). -/
inductive SyncResult (α : Type)
  | thrown (err : String)
  | dispatched (params : α)
  | returned
  | nullDeref
deriving DecidableEq, Repr

/-- Embeds `DB::Put` (`src/src/DB.cc:185-226`): throws synchronously when the
handle is null; otherwise builds a fresh temporary `WriteBatch`, slices
key and value into it, appends the single `Put` entry, and dispatches a
`WriteParams` bundle marked `disposeWriteBatch = true`. -/
def DB_Put (db : Option Store) (key value : JsValue) (hasCallback : Bool) :
    SyncResult WriteParams :=
  match db with
  | none => .thrown "DB has not been opened"
  | some _ =>
    let (k, s1) := JsToSlice key []
    let (v, s2) := JsToSlice value s1
    .dispatched
      { writeBatch := { wb := [.put k v], strings := s2 }
        disposeWriteBatch := true
        hasCallback := hasCallback }

/-- Embeds `DB::Del` (`src/src/DB.cc:233-273`): throws synchronously when the
handle is null; otherwise builds a fresh temporary `WriteBatch` holding
the single `Delete` entry and dispatches it marked
`disposeWriteBatch = true`. -/
def DB_Del (db : Option Store) (key : JsValue) (hasCallback : Bool) :
    SyncResult WriteParams :=
  match db with
  | none => .thrown "DB has not been opened"
  | some _ =>
    let (k, s1) := JsToSlice key []
    .dispatched
      { writeBatch := { wb := [.del k], strings := s1 }
        disposeWriteBatch := true
        hasCallback := hasCallback }

/-- Embeds `DB::Write` (`src/src/DB.cc:280-317`): throws synchronously when the
handle is null; otherwise dispatches the caller-supplied `WriteBatch`
with `disposeWriteBatch` left at its default (false). -/
def DB_Write (db : Option Store) (writeBatch : WriteBatch) (hasCallback : Bool) :
    SyncResult WriteParams :=
  match db with
  | none => .thrown "DB has not been opened"
  | some _ =>
    .dispatched { writeBatch := writeBatch, hasCallback := hasCallback }

/-- Embeds `DB::Get` (`src/src/DB.cc:354-394`): throws synchronously when the
handle is null; otherwise allocates an owned-copy vector only for a text
key, slices the key, and dispatches a `ReadParams` bundle. -/
def DB_Get (db : Option Store) (key : JsValue) (hasCallback : Bool) :
    SyncResult ReadParams :=
  match db with
  | none => .thrown "DB has not been opened"
  | some _ =>
    let strings0 : Option (List Bytes) :=
      match key with
      | .text _ => some [[]]
      | .buffer _ => none
    let (k, s1) :=
      match strings0 with
      | none => (key.bytes, none)
      | some s => let (k, s1) := JsToSlice key s; (k, some s1)
    .dispatched { key := k, strings := s1, hasCallback := hasCallback }

/-- Embeds `DB::NewIterator` (`src/src/DB.cc:423-442`): performs no null check on
the engine handle — it calls `self->db->NewIterator(options)` directly,
so with a null handle the call dereferences null instead of throwing;
with an open handle it synchronously returns a new cursor object. -/
def DB_NewIterator (db : Option Store) : SyncResult Unit :=
  match db with
  | none => .nullDeref
  | some _ => .returned

/-- Whether an event is the strong reference taken on the binding object. -/
def OpEvent.isRefSelf : OpEvent → Bool
  | .refSelf => true
  | _ => false

/-- Whether an event is the event-loop liveness reference being taken. -/
def OpEvent.isRefLoop : OpEvent → Bool
  | .refLoop => true
  | _ => false

/-- Whether an event releases the strong reference on the binding object. -/
def OpEvent.isUnrefSelf : OpEvent → Bool
  | .unrefSelf => true
  | _ => false

/-- Whether an event releases the event-loop liveness reference. -/
def OpEvent.isUnrefLoop : OpEvent → Bool
  | .unrefLoop => true
  | _ => false

/-- Whether an event is the worker-thread execute function running. -/
def OpEvent.isExecute : OpEvent → Bool
  | .executeRun => true
  | _ => false

/-- Whether an event is the caller-thread completion function running. -/
def OpEvent.isComplete : OpEvent → Bool
  | .completeRun => true
  | _ => false

/-- Whether an event destroys the parameter bundle. -/
def OpEvent.isParamsDestroyed : OpEvent → Bool
  | .paramsDestroyed => true
  | _ => false

/-- Whether an event destroys the operation-owned Mutation Set. -/
def OpEvent.isBatchDestroyed : OpEvent → Bool
  | .batchDestroyed => true
  | _ => false

/-- One dispatched asynchronous operation together with the engine handle
as it stands when its worker-thread execute function runs: the four
operation kinds `DB.cc` routes through the async bridge. -/
inductive AsyncOp
  | openOp (db : Option Store) (engineOpen : Except String Store) (p : OpenParams)
  | closeOp (db : Option Store) (hasCallback : Bool)
  | writeOp (db : Option Store) (p : WriteParams)
  | readOp (db : Option Store) (p : ReadParams)

/-- The event trace of one dispatched operation of any kind. -/
def AsyncOp.run : AsyncOp → OpRun
  | .openOp db e p => (runOpenOp db e p).2
  | .closeOp db cb => (runCloseOp db cb).2
  | .writeOp db p => (runWriteOp db p).2
  | .readOp db p => runReadOp db p

/-! Helper lemmas, shared across the claim theorems. -/

/-- Helper: `callbackEvents` contributes no events other than callback
invocations. -/
theorem callbackEvents_countP_eq_zero (f : OpEvent → Bool)
    (hf : ∀ inv, f (OpEvent.callbackInvoked inv) = false)
    (o : Option CallbackInvocation) :
    (callbackEvents o).countP f = 0 := by
  cases o <;> simp [callbackEvents, hf]

/-- Helper: `callbackEvents` contributes exactly one callback invocation
when a callback was supplied and invoked. -/
theorem callbackEvents_countP_isCallback (o : Option CallbackInvocation) :
    (callbackEvents o).countP OpEvent.isCallback = if o.isSome then 1 else 0 := by
  cases o <;> simp [callbackEvents, OpEvent.isCallback]

/-- Helper: with a callback supplied, the completion-callback dispatch
always produces an invocation. -/
theorem paramsCallback_isSome (status : Status) (result : Option JsResult) :
    (paramsCallback true status result).isSome = true := by
  simp [paramsCallback]

/-- Helper: a payload-carrying invocation produced by the callback
dispatch carries exactly the payload argument it was handed. -/
theorem paramsCallback_payload (hc : Bool) (st : Status) (x : JsResult) (r : JsResult)
    (h : paramsCallback hc st (some x) = some (.nullAndResult r)) : r = x := by
  cases hc <;> cases st <;>
    simp [paramsCallback, Status.isOk, Status.isNotFound] at h
  exact h.symm

/-- Helper: any payload-carrying callback invocation in the read
completion path carries the JS string built over the bundle's raw result
bytes. -/
theorem afterRead_payload (p2 : ReadParams) (r : JsResult)
    (h : OpEvent.callbackInvoked (.nullAndResult r) ∈ EIO_AfterRead p2) :
    r = .jsString p2.result := by
  rcases p2 with ⟨key, strs, hc, st, res⟩
  cases hc <;> cases st <;>
    simp [EIO_AfterRead, callbackEvents, paramsCallback, Status.isOk, Status.isNotFound,
      paramsDtorEvents] at h
  exact h

/-! The claim theorems. -/

/-- C1: the claim says every operation in {put, del, write, get,
newIterator} invoked while the engine handle is null fails synchronously
with an "engine not open" error before any bundle construction or
dispatch.  This holds for `put`, `del`, `write` and `get` — but
`DB::NewIterator` performs no null check at all (`src/src/DB.cc:432`
calls `self->db->NewIterator(options)` directly), so on a closed handle
it dereferences null instead of raising the error. -/
theorem C1_closed_handle_rejection :
    (∀ k v cb, DB_Put none k v cb = SyncResult.thrown "DB has not been opened") ∧
    (∀ k cb, DB_Del none k cb = SyncResult.thrown "DB has not been opened") ∧
    (∀ b cb, DB_Write none b cb = SyncResult.thrown "DB has not been opened") ∧
    (∀ k cb, DB_Get none k cb = SyncResult.thrown "DB has not been opened") ∧
    DB_NewIterator none = SyncResult.nullDeref :=
  ⟨fun _ _ _ => rfl, fun _ _ => rfl, fun _ _ => rfl, fun _ _ => rfl, rfl⟩

/-- C2: with a callback supplied, the completion callback is invoked with
exactly one of four shapes determined by the outcome status — success
with no payload: zero arguments; success with payload: (null, payload);
not-found: the single argument (null), never an error; any other
failure: a single error value wrapping the status message. -/
theorem C2_callback_four_shapes :
    paramsCallback true .ok none = some CallbackInvocation.noArgs ∧
    (∀ r, paramsCallback true .ok (some r) = some (CallbackInvocation.nullAndResult r)) ∧
    (∀ result, paramsCallback true .notFound result = some CallbackInvocation.nullOnly) ∧
    (∀ result m,
      paramsCallback true .notFound result ≠ some (CallbackInvocation.errorArg m)) ∧
    (∀ result m,
      paramsCallback true (.error m) result = some (CallbackInvocation.errorArg m)) := by
  refine ⟨rfl, fun _ => rfl, fun _ => rfl, ?_, fun _ _ => rfl⟩
  intro result m h
  simp [paramsCallback, Status.isOk, Status.isNotFound] at h

/-- C3: if the engine handle is null when the worker-thread execute
function runs, `EIO_Read` and `EIO_Write` leave the outcome slot (status
and payload) and the handle untouched, and the operation still runs its
worker and completion segments exactly once, invoking the completion
callback exactly once when one was supplied. -/
theorem C3_null_handle_worker (p : ReadParams) (q : WriteParams) :
    EIO_Read none p = p ∧
    EIO_Write none q = (none, q) ∧
    (runReadOp none p).trace.countP OpEvent.isExecute = 1 ∧
    (runReadOp none p).trace.countP OpEvent.isComplete = 1 ∧
    (runReadOp none p).trace.countP OpEvent.isCallback
      = (if p.hasCallback then 1 else 0) ∧
    ((runWriteOp none q).2).trace.countP OpEvent.isExecute = 1 ∧
    ((runWriteOp none q).2).trace.countP OpEvent.isComplete = 1 ∧
    ((runWriteOp none q).2).trace.countP OpEvent.isCallback
      = (if q.hasCallback then 1 else 0) := by
  refine ⟨rfl, rfl, ?_, ?_, ?_, ?_, ?_, ?_⟩ <;>
    rcases p with ⟨key, strs, hcp, stp, resp⟩ <;>
    rcases q with ⟨wb, dwb, hcq, stq⟩ <;>
    cases hcp <;> cases hcq <;>
    simp [runReadOp, runWriteOp, EIO_Read, EIO_Write, EIO_AfterRead, EIO_AfterWrite,
      OpRun.trace, paramsCtorEvents, paramsDtorEvents, callbackEvents, paramsCallback,
      OpEvent.isExecute, OpEvent.isComplete, OpEvent.isCallback,
      List.countP_append, List.countP_cons]

/-- C6: a close on an open handle destroys the engine instance and nulls
the handle; a close on an already-closed handle changes nothing and its
completion sees the default success status — with a callback supplied
the invocation is the zero-argument success shape, never an error. -/
theorem C6_close_semantics (prev : Store) (cb : Bool) :
    (runCloseOp (some prev) cb).1 = none ∧
    ((runCloseOp (some prev) cb).2).worker = [.executeRun, .engineDestroyed] ∧
    (runCloseOp none cb).1 = none ∧
    ((runCloseOp none cb).2).worker = [.executeRun] ∧
    ((runCloseOp none cb).2).completion =
      .completeRun ::
        ((if cb then [OpEvent.callbackInvoked .noArgs] else []) ++ paramsDtorEvents) := by
  cases cb <;> exact ⟨rfl, rfl, rfl, rfl, rfl⟩

/-- C4: `put(k, v)` builds a fresh single-entry Mutation Set
`[Put(k, v)]` (and `del(k)` a fresh `[Delete(k)]`) and submits it through
the same dispatch and worker path as `write`; the internal batch is
marked operation-owned and destroyed by the completion path, while a
caller-supplied batch submitted through `write` is not, the engine-state
effect and callback invocations being identical otherwise. -/
theorem C4_put_del_are_single_entry_writes (store : Store) (k v : JsValue) (cb : Bool) :
    ∃ p q d : WriteParams,
      DB_Put (some store) k v cb = .dispatched p ∧
      DB_Del (some store) k cb = .dispatched d ∧
      p.writeBatch.wb = [.put k.bytes v.bytes] ∧
      d.writeBatch.wb = [.del k.bytes] ∧
      p.disposeWriteBatch = true ∧
      d.disposeWriteBatch = true ∧
      DB_Write (some store) p.writeBatch cb = .dispatched q ∧
      q.writeBatch = p.writeBatch ∧
      q.disposeWriteBatch = false ∧
      (runWriteOp (some store) p).1 = (runWriteOp (some store) q).1 ∧
      ((runWriteOp (some store) p).2).completion.filter OpEvent.isCallback
        = ((runWriteOp (some store) q).2).completion.filter OpEvent.isCallback ∧
      ((runWriteOp (some store) p).2).completion.countP OpEvent.isBatchDestroyed = 1 ∧
      ((runWriteOp (some store) q).2).completion.countP OpEvent.isBatchDestroyed = 0 := by
  cases k <;> cases v <;> cases cb <;>
    exact ⟨_, _, _, rfl, rfl, rfl, rfl, rfl, rfl, rfl, rfl, rfl, rfl, rfl, rfl, rfl⟩

/-- C5: an open on an already-open binding destroys the existing engine
instance before the engine open is attempted; a successful open leaves
the handle holding the fresh engine instance with an `ok` outcome, and a
failed open leaves the handle null with the failure status in the
outcome. -/
theorem C5_open_semantics (db : Option Store) (engineOpen : Except String Store)
    (p : OpenParams) :
    (∀ prev, db = some prev →
      (EIO_Open db engineOpen p).2.2 =
        [.executeRun, .engineDestroyed, .engineOpenAttempted]) ∧
    (∀ store, engineOpen = .ok store →
      (EIO_Open db engineOpen p).1 = some store ∧
      (EIO_Open db engineOpen p).2.1.status = .ok) ∧
    (∀ msg, engineOpen = .error msg →
      (EIO_Open db engineOpen p).1 = none ∧
      (EIO_Open db engineOpen p).2.1.status = .error msg) := by
  refine ⟨?_, ?_, ?_⟩
  · intro prev hx
    subst hx
    cases engineOpen <;> simp [EIO_Open]
  · intro store hx
    subst hx
    cases db <;> simp [EIO_Open]
  · intro msg hx
    subst hx
    cases db <;> simp [EIO_Open]

/-- Witness for C5 at concrete inputs: a reopen over an open handle that
succeeds, and one that fails. -/
theorem C5_open_semantics_witness :
    (EIO_Open (some [([0], [1])]) (.ok [([2], [3])])
        { name := "db", hasCallback := true }).2.2 =
      [.executeRun, .engineDestroyed, .engineOpenAttempted] ∧
    (EIO_Open (some [([0], [1])]) (.ok [([2], [3])])
        { name := "db", hasCallback := true }).1 = some [([2], [3])] ∧
    (EIO_Open (some [([0], [1])]) (.ok [([2], [3])])
        { name := "db", hasCallback := true }).2.1.status = .ok ∧
    (EIO_Open (some [([0], [1])]) (.error "corrupt")
        { name := "db", hasCallback := true }).1 = none ∧
    (EIO_Open (some [([0], [1])]) (.error "corrupt")
        { name := "db", hasCallback := true }).2.1.status = .error "corrupt" :=
  ⟨(C5_open_semantics (some [([0], [1])]) (.ok [([2], [3])])
      { name := "db", hasCallback := true }).1 _ rfl,
   ((C5_open_semantics (some [([0], [1])]) (.ok [([2], [3])])
      { name := "db", hasCallback := true }).2.1 _ rfl).1,
   ((C5_open_semantics (some [([0], [1])]) (.ok [([2], [3])])
      { name := "db", hasCallback := true }).2.1 _ rfl).2,
   ((C5_open_semantics (some [([0], [1])]) (.error "corrupt")
      { name := "db", hasCallback := true }).2.2 _ rfl).1,
   ((C5_open_semantics (some [([0], [1])]) (.error "corrupt")
      { name := "db", hasCallback := true }).2.2 _ rfl).2⟩

/-- C7: an exception raised by the JS completion callback body is caught
by the completion path's `TryCatch` and reported through
`FatalException` — a process-fatal condition — never silently
swallowed. -/
theorem C7_callback_exception_is_fatal (status : Status) (result : Option JsResult)
    (throws : CallbackInvocation → Bool) (inv : CallbackInvocation)
    (hinv : (paramsCallbackRun true status result throws).1 = some inv)
    (hthrows : throws inv = true) :
    (paramsCallbackRun true status result throws).2 = CompletionReport.fatalException := by
  unfold paramsCallbackRun at hinv ⊢
  rcases h : paramsCallback true status result with _ | inv2
  · rw [h] at hinv
    simp at hinv
  · rw [h] at hinv
    simp at hinv
    subst hinv
    simp [hthrows]

/-- Witness for C7 at a concrete input: a successful no-payload outcome
whose callback always throws ends in a fatal-exception report. -/
theorem C7_callback_exception_is_fatal_witness :
    (paramsCallbackRun true .ok none (fun _ => true)).1
      = some CallbackInvocation.noArgs ∧
    (fun _ : CallbackInvocation => true) CallbackInvocation.noArgs = true ∧
    (paramsCallbackRun true .ok none (fun _ => true)).2
      = CompletionReport.fatalException :=
  ⟨rfl, rfl, C7_callback_exception_is_fatal .ok none (fun _ => true) .noArgs rfl rfl⟩

/-- C8: every dispatched operation, of any of the four kinds, takes
exactly one strong reference on the binding object and exactly one
event-loop liveness reference during bundle construction on the caller
thread, releases each exactly once in its completion segment (back on
the caller thread), and its bundle is destroyed exactly once, also in
the completion segment. -/
theorem C8_refcount_exactly_once (op : AsyncOp) :
    op.run.dispatch.countP OpEvent.isRefSelf = 1 ∧
    op.run.dispatch.countP OpEvent.isRefLoop = 1 ∧
    op.run.trace.countP OpEvent.isRefSelf = 1 ∧
    op.run.trace.countP OpEvent.isRefLoop = 1 ∧
    op.run.trace.countP OpEvent.isUnrefSelf = 1 ∧
    op.run.trace.countP OpEvent.isUnrefLoop = 1 ∧
    op.run.trace.countP OpEvent.isParamsDestroyed = 1 ∧
    op.run.completion.countP OpEvent.isUnrefSelf = 1 ∧
    op.run.completion.countP OpEvent.isUnrefLoop = 1 ∧
    op.run.completion.countP OpEvent.isParamsDestroyed = 1 := by
  rcases op with ⟨db, e, p⟩ | ⟨db, cb⟩ | ⟨db, p⟩ | ⟨db, p⟩
  · cases db <;> cases e <;>
      simp [AsyncOp.run, runOpenOp, EIO_Open, OpRun.trace, paramsCtorEvents,
        paramsDtorEvents, callbackEvents_countP_eq_zero,
        OpEvent.isRefSelf, OpEvent.isRefLoop, OpEvent.isUnrefSelf, OpEvent.isUnrefLoop,
        OpEvent.isParamsDestroyed, List.countP_append, List.countP_cons]
  · cases db <;>
      simp [AsyncOp.run, runCloseOp, EIO_Close, OpRun.trace, paramsCtorEvents,
        paramsDtorEvents, callbackEvents_countP_eq_zero,
        OpEvent.isRefSelf, OpEvent.isRefLoop, OpEvent.isUnrefSelf, OpEvent.isUnrefLoop,
        OpEvent.isParamsDestroyed, List.countP_append, List.countP_cons]
  · rcases p with ⟨wb, dwb, hc, st⟩
    cases db <;> cases dwb <;>
      simp [AsyncOp.run, runWriteOp, EIO_Write, EIO_AfterWrite, OpRun.trace,
        paramsCtorEvents, paramsDtorEvents, callbackEvents_countP_eq_zero,
        OpEvent.isRefSelf, OpEvent.isRefLoop, OpEvent.isUnrefSelf, OpEvent.isUnrefLoop,
        OpEvent.isParamsDestroyed, List.countP_append, List.countP_cons]
  · cases db <;>
      simp [AsyncOp.run, runReadOp, EIO_AfterRead, OpRun.trace,
        paramsCtorEvents, paramsDtorEvents, callbackEvents_countP_eq_zero,
        OpEvent.isRefSelf, OpEvent.isRefLoop, OpEvent.isUnrefSelf, OpEvent.isUnrefLoop,
        OpEvent.isParamsDestroyed, List.countP_append, List.countP_cons]

/-- C9: on an open handle, for a key and value each given as text or as a
byte buffer, a `put(k, v)` followed by a `get(k)` (no interleaved
conflicting operation) completes the get with a payload whose bytes are
exactly the bytes of `v`. -/
theorem C9_put_get_roundtrip (store : Store) (k v : JsValue) :
    ∃ (p : WriteParams) (store2 : Store) (q : ReadParams),
      DB_Put (some store) k v true = .dispatched p ∧
      (runWriteOp (some store) p).1 = some store2 ∧
      DB_Get (some store2) k true = .dispatched q ∧
      ((runReadOp (some store2) q).completion).filter OpEvent.isCallback
        = [.callbackInvoked (.nullAndResult (.jsString v.bytes))] := by
  cases k <;> cases v <;>
    refine ⟨_, _, _, rfl, rfl, rfl, ?_⟩ <;>
    simp [runReadOp, EIO_Read, EIO_AfterRead, runWriteOp, EIO_Write, applyBatch,
      applyEntry, storeGet, JsValue.bytes, callbackEvents, paramsCallback,
      Status.isOk, paramsDtorEvents, OpEvent.isCallback]

/-- C10: whatever payload-carrying invocation the get completion path
delivers, the payload is the JS text string built by
`String::New(result.data(), result.length())` over the raw result bytes
of the worker's lookup — never a byte buffer, regardless of how key or
stored value were supplied. -/
theorem C10_get_payload_is_string (db : Option Store) (p : ReadParams) (r : JsResult)
    (h : OpEvent.callbackInvoked (.nullAndResult r) ∈ (runReadOp db p).trace) :
    r = .jsString (EIO_Read db p).result := by
  apply afterRead_payload
  simp [runReadOp, OpRun.trace, paramsCtorEvents] at h
  simpa [EIO_AfterRead] using h

/-- Witness for C10 at a concrete input: a get for key `[1]` over an
engine holding `[1] ↦ [2]` delivers the string payload `[2]`. -/
theorem C10_get_payload_is_string_witness :
    OpEvent.callbackInvoked (.nullAndResult (.jsString [2])) ∈
      (runReadOp (some [([1], [2])])
        { key := [1], strings := none, hasCallback := true }).trace ∧
    JsResult.jsString [2] =
      .jsString (EIO_Read (some [([1], [2])])
        { key := [1], strings := none, hasCallback := true }).result :=
  ⟨by decide,
   C10_get_payload_is_string (some [([1], [2])])
     { key := [1], strings := none, hasCallback := true } _ (by decide)⟩

/-- Witness for C2 at concrete inputs, one per outcome shape. -/
theorem C2_callback_four_shapes_witness :
    paramsCallback true .ok none = some CallbackInvocation.noArgs ∧
    paramsCallback true .ok (some (.jsString [7]))
      = some (CallbackInvocation.nullAndResult (.jsString [7])) ∧
    paramsCallback true .notFound none = some CallbackInvocation.nullOnly ∧
    paramsCallback true .notFound none ≠ some (CallbackInvocation.errorArg "gone") ∧
    paramsCallback true (.error "corruption") none
      = some (CallbackInvocation.errorArg "corruption") :=
  ⟨C2_callback_four_shapes.1,
   C2_callback_four_shapes.2.1 _,
   C2_callback_four_shapes.2.2.1 _,
   C2_callback_four_shapes.2.2.2.1 _ _,
   C2_callback_four_shapes.2.2.2.2 _ _⟩

end NodeLevelDB
